import Mathlib

/-!
Verification of the paper-trading core of a virtual trader tool.

Shallow embedding of the TypeScript source:
* `src/lib/db/queries.ts`       — store operations on positions / fills / events
* `src/lib/calc/pnl.ts`         — pure calculation helpers and SL/TP predicates
* `src/lib/triggers/engine.ts`  — per-tick trigger evaluation
* `src/lib/binance/rest-api.ts` — symbol-format validation
* `src/lib/binance/ws-client.ts`— reconnect backoff
* `src/app/api/paper/positions/route.ts` — POST handler (validation, percent
  conversion, entry-price resolution)
* stats route — average R-multiple

Numbers are modelled as `ℚ` (the JS sources only use +,-,*,/ and comparisons
on finite doubles; no claim under test depends on rounding).  Position `side`
is a `String`, as in the source, where it is a string compared with
`=== 'LONG'`.  Database rows are lists; AUTOINCREMENT ids are explicit
counters.  `Date.now()` is passed in as a `now : Nat` parameter.  Event
`payload` (an uninterpreted JSON blob) is not modelled; no claim mentions it.
-/

namespace BVT

/-- `status` column: CHECK(status IN ('OPEN','CLOSED')). -/
inductive Status
  | OPEN
  | CLOSED
deriving DecidableEq, Repr

/-- `paper_fills.type` column: CHECK(type IN ('OPEN','CLOSE','PARTIAL')). -/
inductive FillType
  | OPEN
  | CLOSE
  | PARTIAL
deriving DecidableEq, Repr

/-- `EventType` from `src/types`. -/
inductive EventType
  | SL_TRIGGERED
  | TP_TRIGGERED
  | MANUAL_CLOSE
  | SL_UPDATED
  | TP_UPDATED
  | POSITION_CREATED
deriving DecidableEq, Repr

/-- The event argument of `closePosition` has the TS union type
`'SL_TRIGGERED' | 'TP_TRIGGERED' | 'MANUAL_CLOSE'`. -/
inductive CloseEvent
  | SL_TRIGGERED
  | TP_TRIGGERED
  | MANUAL_CLOSE
deriving DecidableEq, Repr

def CloseEvent.toEventType : CloseEvent → EventType
  | .SL_TRIGGERED => .SL_TRIGGERED
  | .TP_TRIGGERED => .TP_TRIGGERED
  | .MANUAL_CLOSE => .MANUAL_CLOSE

/-- A row of `paper_positions` (interface `Position` in `src/types`). -/
structure Position where
  id : Nat
  symbol : String
  side : String
  qty : ℚ
  entryPrice : ℚ
  entryTime : Nat
  sl : Option ℚ
  tp : Option ℚ
  leverage : ℚ
  status : Status
  closePrice : Option ℚ
  closeTime : Option Nat
  realizedPnl : ℚ
  feesOpen : ℚ
  feesClose : ℚ
  fundingPnl : ℚ
  notes : Option String
deriving DecidableEq, Repr

/-- A row of `paper_fills`. -/
structure Fill where
  id : Nat
  positionId : Nat
  type : FillType
  price : ℚ
  qty : ℚ
  fee : ℚ
  ts : Nat
deriving DecidableEq, Repr

/-- A row of `paper_events` (the JSON `payload` blob is not modelled). -/
structure Event where
  id : Nat
  positionId : Nat
  event : EventType
  ts : Nat
deriving DecidableEq, Repr

/-- The single `settings` row. -/
structure Settings where
  takerFee : ℚ
  makerFee : ℚ
  enableFunding : Bool
  baseBalance : ℚ
  numberFormat : String
  timezone : String
  defaultStopLossPercent : ℚ
  defaultTakeProfitPercent : ℚ
deriving DecidableEq, Repr

/-- The SQLite database.  `next…Id` model the AUTOINCREMENT counters. -/
structure Store where
  positions : List Position
  fills : List Fill
  events : List Event
  nextPositionId : Nat
  nextFillId : Nat
  nextEventId : Nat
  settings : Settings
deriving DecidableEq, Repr

/-- Body of a POST /api/paper/positions request
(interface `CreatePositionRequest`), before any validation: `side`,
`sizeMode`, `entryType`, `slMode`, `tpMode` are raw strings. -/
structure CreatePositionRequest where
  symbol : String
  side : String
  sizeMode : String
  sizeValue : ℚ
  leverage : ℚ
  entryType : String
  limitPrice : Option ℚ
  sl : Option ℚ
  tp : Option ℚ
  slMode : Option String
  tpMode : Option String
  notes : Option String
deriving DecidableEq, Repr

/-- interface `UpdatePositionRequest`: `sl?: number; tp?: number`.
`none` models an absent (`undefined`) field. -/
structure UpdatePositionRequest where
  sl : Option ℚ
  tp : Option ℚ
deriving DecidableEq, Repr

/-- JS truthiness of an optional number: `undefined` and `0` are falsy. -/
def qTruthy : Option ℚ → Bool
  | none => false
  | some v => decide (v ≠ 0)

/-- `x || null` on an optional numeric field (`data.sl || null`). -/
def orNullQ (x : Option ℚ) : Option ℚ :=
  if qTruthy x then x else none

/-- `x || null` on an optional string (`data.notes || null`): `undefined`
and the empty string are falsy. -/
def orNullStr : Option String → Option String
  | none => none
  | some s => if s = "" then none else some s

-- ==================== Calc (`src/lib/calc/pnl.ts`) ====================

/-- `calculateNotional`. -/
def calculateNotional (qty price : ℚ) : ℚ := qty * price

/-- `calculateFee`. -/
def calculateFee (notional feeRate : ℚ) : ℚ := notional * feeRate

/-- `calculateTakerFee`: reads `takerFee` from the settings row. -/
def calculateTakerFee (st : Store) (notional : ℚ) : ℚ :=
  calculateFee notional st.settings.takerFee

/-- `shouldTriggerSLLong`: `sl !== null && markPrice <= sl`. -/
def shouldTriggerSLLong (markPrice : ℚ) : Option ℚ → Bool
  | none => false
  | some sl => decide (markPrice ≤ sl)

/-- `shouldTriggerTPLong`: `tp !== null && markPrice >= tp`. -/
def shouldTriggerTPLong (markPrice : ℚ) : Option ℚ → Bool
  | none => false
  | some tp => decide (tp ≤ markPrice)

/-- `shouldTriggerSLShort`: `sl !== null && markPrice >= sl`. -/
def shouldTriggerSLShort (markPrice : ℚ) : Option ℚ → Bool
  | none => false
  | some sl => decide (sl ≤ markPrice)

/-- `shouldTriggerTPShort`: `tp !== null && markPrice <= tp`. -/
def shouldTriggerTPShort (markPrice : ℚ) : Option ℚ → Bool
  | none => false
  | some tp => decide (markPrice ≤ tp)

/-- `shouldTriggerSL`: dispatch on `side === 'LONG'`. -/
def shouldTriggerSL (side : String) (markPrice : ℚ) (sl : Option ℚ) : Bool :=
  if side = "LONG" then shouldTriggerSLLong markPrice sl
  else shouldTriggerSLShort markPrice sl

/-- `shouldTriggerTP`: dispatch on `side === 'LONG'`. -/
def shouldTriggerTP (side : String) (markPrice : ℚ) (tp : Option ℚ) : Bool :=
  if side = "LONG" then shouldTriggerTPLong markPrice tp
  else shouldTriggerTPShort markPrice tp

-- ==================== Store queries (`src/lib/db/queries.ts`) ====================

/-- `SELECT * FROM paper_positions WHERE id = ?` on a list of rows. -/
def findPosition (l : List Position) (id : Nat) : Option Position :=
  l.find? (fun p => p.id == id)

/-- `getPositionById`. -/
def getPositionById (st : Store) (id : Nat) : Option Position :=
  findPosition st.positions id

/-- Insertion step of `ORDER BY entryTime DESC`. -/
def insertByEntryTimeDesc (p : Position) : List Position → List Position
  | [] => [p]
  | q :: qs =>
    if q.entryTime ≤ p.entryTime then p :: q :: qs
    else q :: insertByEntryTimeDesc p qs

/-- `ORDER BY entryTime DESC` as an insertion sort. -/
def sortByEntryTimeDesc : List Position → List Position
  | [] => []
  | p :: ps => insertByEntryTimeDesc p (sortByEntryTimeDesc ps)

/-- `getPositions(status?)`: optional exact-match status filter, ordered by
`entryTime` descending. -/
def getPositions (st : Store) (status : Option Status) : List Position :=
  match status with
  | some s => sortByEntryTimeDesc (st.positions.filter (fun p => p.status == s))
  | none => sortByEntryTimeDesc st.positions

/-- `getAllOpenPositions`. -/
def getAllOpenPositions (st : Store) : List Position :=
  getPositions st (some .OPEN)

/-- Argument record of `createFill` (`Omit<Fill,'id'>`). -/
structure FillData where
  positionId : Nat
  type : FillType
  price : ℚ
  qty : ℚ
  fee : ℚ
  ts : Nat

/-- `createFill`: INSERT INTO paper_fills. -/
def createFill (st : Store) (data : FillData) : Fill × Store :=
  let f : Fill :=
    { id := st.nextFillId, positionId := data.positionId, type := data.type,
      price := data.price, qty := data.qty, fee := data.fee, ts := data.ts }
  (f, { st with fills := st.fills ++ [f], nextFillId := st.nextFillId + 1 })

/-- Argument record of `createEvent` (`Omit<Event,'id'>`, payload dropped). -/
structure EventData where
  positionId : Nat
  event : EventType
  ts : Nat

/-- `createEvent`: INSERT INTO paper_events. -/
def createEvent (st : Store) (data : EventData) : Event × Store :=
  let e : Event :=
    { id := st.nextEventId, positionId := data.positionId,
      event := data.event, ts := data.ts }
  (e, { st with events := st.events ++ [e], nextEventId := st.nextEventId + 1 })

/-- The row written by the INSERT inside `createPosition`: status 'OPEN',
`qty` derived from `sizeMode`, `sl`/`tp`/`notes` passed through `|| null`,
`realizedPnl = 0`, `fundingPnl = 0`, `feesClose` left at its schema
default 0. -/
def mkNewPosition (data : CreatePositionRequest) (entryPrice fee : ℚ)
    (now : Nat) (id : Nat) : Position :=
  { id := id
    symbol := data.symbol
    side := data.side
    qty := if data.sizeMode = "USDT" then data.sizeValue / entryPrice else data.sizeValue
    entryPrice := entryPrice
    entryTime := now
    sl := orNullQ data.sl
    tp := orNullQ data.tp
    leverage := data.leverage
    status := .OPEN
    closePrice := none
    closeTime := none
    realizedPnl := 0
    feesOpen := fee
    feesClose := 0
    fundingPnl := 0
    notes := orNullStr data.notes }

/-- Which of the three sequential statements inside `createPosition`
succeed.  better-sqlite3 runs each prepared statement in its own implicit
transaction (`queries.ts` opens no explicit one), so a statement that
throws leaves the earlier statements committed. -/
structure WriteSchedule where
  posOk : Bool
  fillOk : Bool
  evOk : Bool
deriving DecidableEq, Repr

/-- Result of running `createPosition` under a `WriteSchedule`: either the
returned position and final store, or the store as left behind by the
statement that threw. -/
inductive RunResult
  | ok (p : Position) (st : Store)
  | failed (st : Store)
deriving DecidableEq, Repr

/-- `createPosition(data, entryPrice, fee)` from `queries.ts`:
position INSERT, then `createFill` (OPEN fill), then `createEvent`
(POSITION_CREATED), then `return getPositionById(positionId)!`.
Each write is guarded by its `WriteSchedule` flag; a failing write aborts
the function with the state accumulated so far (exception propagation —
there is no enclosing transaction to roll back). -/
def createPositionRun (sch : WriteSchedule) (data : CreatePositionRequest)
    (entryPrice fee : ℚ) (now : Nat) (st : Store) : RunResult :=
  if sch.posOk = false then .failed st else
  let pos := mkNewPosition data entryPrice fee now st.nextPositionId
  let st1 := { st with positions := st.positions ++ [pos],
                       nextPositionId := st.nextPositionId + 1 }
  if sch.fillOk = false then .failed st1 else
  let st2 := (createFill st1
    { positionId := pos.id, type := .OPEN, price := entryPrice,
      qty := pos.qty, fee := fee, ts := now }).2
  if sch.evOk = false then .failed st2 else
  let st3 := (createEvent st2
    { positionId := pos.id, event := .POSITION_CREATED, ts := now }).2
  match getPositionById st3 pos.id with
  | some p => .ok p st3
  | none => .failed st3

/-- `createPosition` on the all-writes-succeed path. -/
def createPosition (data : CreatePositionRequest) (entryPrice fee : ℚ)
    (now : Nat) (st : Store) : Option Position × Store :=
  match createPositionRun { posOk := true, fillOk := true, evOk := true }
      data entryPrice fee now st with
  | .ok p st2 => (some p, st2)
  | .failed st2 => (none, st2)

/-- The per-row effect of the UPDATE inside `updatePosition`: set the
provided fields on the row with the matching id. -/
def applySLTP (id : Nat) (data : UpdatePositionRequest) (p : Position) : Position :=
  if p.id == id then
    { p with
      sl := match data.sl with | some v => some v | none => p.sl
      tp := match data.tp with | some v => some v | none => p.tp }
  else p

/-- `updatePosition(id, data)`: if neither `sl` nor `tp` is provided,
return `getPositionById(id)` without touching the database; otherwise run
the UPDATE, log one event (`SL_UPDATED` when `sl` was provided, else
`TP_UPDATED`) and re-read the row.  There is no status check. -/
def updatePosition (st : Store) (id : Nat) (data : UpdatePositionRequest)
    (now : Nat) : Option Position × Store :=
  if data.sl = none ∧ data.tp = none then (getPositionById st id, st)
  else
    let st1 := { st with positions := st.positions.map (applySLTP id data) }
    let st2 := (createEvent st1
      { positionId := id
        event := match data.sl with | some _ => .SL_UPDATED | none => .TP_UPDATED
        ts := now }).2
    (getPositionById st2 id, st2)

/-- The per-row effect of the UPDATE inside `closePosition`. -/
def applyClose (id : Nat) (closePrice fee realizedPnl : ℚ) (now : Nat)
    (p : Position) : Position :=
  if p.id == id then
    { p with status := .CLOSED, closePrice := some closePrice,
             closeTime := some now, realizedPnl := realizedPnl,
             feesClose := fee }
  else p

/-- `closePosition(id, closePrice, fee, event)` from `queries.ts`:
look the row up; return null if missing or already CLOSED; otherwise
compute the realized PnL, UPDATE the row, append a CLOSE fill and the
given event, and re-read the row. -/
def closePosition (st : Store) (id : Nat) (closePrice fee : ℚ)
    (event : CloseEvent) (now : Nat) : Option Position × Store :=
  match getPositionById st id with
  | none => (none, st)
  | some position =>
    if position.status = .CLOSED then (none, st)
    else
      let pnl :=
        if position.side = "LONG" then (closePrice - position.entryPrice) * position.qty
        else (position.entryPrice - closePrice) * position.qty
      let realizedPnl := pnl - position.feesOpen - fee - position.fundingPnl
      let st1 :=
        { st with positions := st.positions.map (applyClose id closePrice fee realizedPnl now) }
      let st2 := (createFill st1
        { positionId := id, type := .CLOSE, price := closePrice,
          qty := position.qty, fee := fee, ts := now }).2
      let st3 := (createEvent st2
        { positionId := id, event := event.toEventType, ts := now }).2
      (getPositionById st3 id, st3)

-- ==================== TriggerEngine (`src/lib/triggers/engine.ts`) ====================

/-- The decision made by the loop body of `checkTriggersForSymbol` for one
position: SL first (`continue` on hit), else TP, else nothing. -/
def triggerDecision (side : String) (markPrice : ℚ) (sl tp : Option ℚ) :
    Option CloseEvent :=
  if shouldTriggerSL side markPrice sl then some .SL_TRIGGERED
  else if shouldTriggerTP side markPrice tp then some .TP_TRIGGERED
  else none

/-- `executeTrigger`: re-find the open position, compute the taker close
fee on the closing notional, and call `closePosition`.  (The WebSocket
unsubscribe side effect is not modelled.) -/
def executeTrigger (st : Store) (positionId : Nat) (closePrice : ℚ)
    (event : CloseEvent) (now : Nat) : Store :=
  match (getAllOpenPositions st).find? (fun p => p.id == positionId) with
  | none => st
  | some position =>
    let notional := calculateNotional position.qty closePrice
    let closeFee := calculateTakerFee st notional
    (closePosition st positionId closePrice closeFee event now).2

/-- `checkTriggersForSymbol`: filter the open positions by symbol and run
the SL-before-TP loop body on each. -/
def checkTriggersForSymbol (st : Store) (symbol : String) (markPrice : ℚ)
    (now : Nat) : Store :=
  ((getAllOpenPositions st).filter (fun p => p.symbol == symbol)).foldl
    (fun acc p =>
      match triggerDecision p.side markPrice p.sl p.tp with
      | some ev => executeTrigger acc p.id markPrice ev now
      | none => acc) st

-- ==================== REST helpers (`src/lib/binance/rest-api.ts`) ====================

/-- `isValidSymbolFormat`: `/^[A-Z0-9]{5,20}$/.test(symbol) && symbol.endsWith('USDT')`. -/
def isValidSymbolFormat (symbol : String) : Bool :=
  decide (5 ≤ symbol.length) && decide (symbol.length ≤ 20)
    && symbol.toList.all (fun c => c.isUpper || c.isDigit)
    && symbol.endsWith "USDT"

/-- `getCurrentPrice`: throws on invalid symbol format (checked against the
uppercased symbol), otherwise asks the exchange — modelled by a price
oracle. -/
def getCurrentPrice (oracle : String → ℚ) (symbol : String) : Except String ℚ :=
  if isValidSymbolFormat symbol.toUpper then .ok (oracle symbol)
  else .error "Invalid symbol format"

-- ==================== POST /api/paper/positions (`route.ts`) ====================

/-- The three validation gates at the top of the POST handler, in source
order: JS-truthiness of the required fields, leverage range, size sign. -/
def validateCreate (body : CreatePositionRequest) : Option String :=
  if body.symbol = "" ∨ body.side = "" ∨ body.sizeValue = 0 ∨ body.leverage = 0 then
    some "Missing required fields"
  else if body.leverage < 1 ∨ 125 < body.leverage then
    some "Leverage must be between 1 and 125"
  else if body.sizeValue ≤ 0 then
    some "Size must be greater than 0"
  else none

/-- Percent→price conversion for SL from the POST handler:
applies only when `slMode === 'PERCENT' && body.sl` (truthy). -/
def convertSl (side : String) (entryPrice : ℚ) (slMode : Option String)
    (sl : Option ℚ) : Option ℚ :=
  match sl with
  | none => none
  | some v =>
    if slMode = some "PERCENT" ∧ v ≠ 0 then
      if side = "LONG" then some (entryPrice * (1 - v / 100))
      else some (entryPrice * (1 + v / 100))
    else some v

/-- Percent→price conversion for TP from the POST handler. -/
def convertTp (side : String) (entryPrice : ℚ) (tpMode : Option String)
    (tp : Option ℚ) : Option ℚ :=
  match tp with
  | none => none
  | some v =>
    if tpMode = some "PERCENT" ∧ v ≠ 0 then
      if side = "LONG" then some (entryPrice * (1 + v / 100))
      else some (entryPrice * (1 - v / 100))
    else some v

/-- Outcome of the POST handler.  `badRequest` and `serverError` return
before (or instead of) committing, so they carry no store. -/
inductive PostResult
  | badRequest (msg : String)
  | serverError (msg : String)
  | created (p : Position) (st : Store)
deriving DecidableEq, Repr

/-- The POST /api/paper/positions handler: validate, resolve the entry
price (`LIMIT` with a truthy `limitPrice` uses it directly, otherwise
`getCurrentPrice`), compute the opening taker fee, convert percent SL/TP,
and call `createPosition`. -/
def postPositions (oracle : String → ℚ) (st : Store)
    (body : CreatePositionRequest) (now : Nat) : PostResult :=
  match validateCreate body with
  | some msg => .badRequest msg
  | none =>
    let entryPriceE :=
      if body.entryType = "LIMIT" ∧ qTruthy body.limitPrice = true then
        Except.ok (body.limitPrice.getD 0)
      else getCurrentPrice oracle body.symbol
    match entryPriceE with
    | .error msg => .serverError msg
    | .ok entryPrice =>
      let qty := if body.sizeMode = "USDT" then body.sizeValue / entryPrice else body.sizeValue
      let fee := calculateTakerFee st (calculateNotional qty entryPrice)
      let body2 :=
        { body with sl := convertSl body.side entryPrice body.slMode body.sl,
                    tp := convertTp body.side entryPrice body.tpMode body.tp }
      match createPosition body2 entryPrice fee now st with
      | (some p, st2) => .created p st2
      | (none, _) => .serverError "Failed to create position"

-- ==================== GET /api/paper/stats ====================

/-- The R-multiple list of the stats route: filter the closed positions to
those with a non-null `sl`, then map each to
`(realizedPnl / qty) / |entryPrice - (sl || 0)|`, with `0` when the risk
is zero. -/
def rMultiples (closedPositions : List Position) : List ℚ :=
  (closedPositions.filter (fun p => p.sl.isSome)).map (fun p =>
    let risk := |p.entryPrice - p.sl.getD 0|
    if risk = 0 then 0 else (p.realizedPnl / p.qty) / risk)

/-- `avgRMultiple` as computed by the stats route. -/
def statsAvgRMultiple (st : Store) : ℚ :=
  let rs := rMultiples (getPositions st (some .CLOSED))
  if 0 < rs.length then rs.sum / (rs.length : ℚ) else 0

/-- The claim's formula for the average R-multiple, written from the spec:
the mean of `(realizedPnl/qty) / |entryPrice - sl|` over exactly the closed
positions with non-null `sl` AND non-zero risk (zero-risk rows excluded
from both the sum and the divisor). -/
def claimAvgRMultiple (st : Store) : ℚ :=
  let qual := st.positions.filter (fun p =>
    p.status == Status.CLOSED && p.sl.isSome
      && decide (|p.entryPrice - p.sl.getD 0| ≠ 0))
  (qual.map (fun p => (p.realizedPnl / p.qty) / |p.entryPrice - p.sl.getD 0|)).sum
    / (qual.length : ℚ)

/-- The amended formula: the mean over the closed positions with non-null
`sl`, where a zero-risk row contributes `0` to the sum but still counts in
the divisor. -/
def amendedAvgRMultiple (st : Store) : ℚ :=
  let qual := (st.positions.filter (fun p => p.status == Status.CLOSED)).filter
    (fun p => p.sl.isSome)
  if qual.length = 0 then 0
  else
    (qual.map (fun p =>
      let risk := |p.entryPrice - p.sl.getD 0|
      if risk = 0 then 0 else (p.realizedPnl / p.qty) / risk)).sum
      / (qual.length : ℚ)

-- ==================== WebSocket reconnect (`ws-client.ts`) ====================

/-- `maxReconnectAttempts = 10`. -/
def maxReconnectAttempts : Nat := 10

/-- What `scheduleReconnect` does: schedule a retry after a delay, or give
up and emit `maxReconnectAttemptsReached`. -/
inductive ReconnectAction
  | scheduled (delayMs : Nat)
  | giveUp
deriving DecidableEq, Repr

/-- `scheduleReconnect`, as a function of the `reconnectAttempts` counter:
if the maximum is reached, give up (emitting the terminal signal);
otherwise increment the counter and schedule after
`min(1000 * 2^(attempts-1), 30000)` ms. -/
def scheduleReconnect (reconnectAttempts : Nat) : Nat × ReconnectAction :=
  if maxReconnectAttempts ≤ reconnectAttempts then (reconnectAttempts, .giveUp)
  else
    let attempts := reconnectAttempts + 1
    (attempts, .scheduled (min (1000 * 2 ^ (attempts - 1)) 30000))

/-- The `open` handler sets `this.reconnectAttempts = 0`. -/
def onSocketOpen (_reconnectAttempts : Nat) : Nat := 0

/-- The evolution of the attempt counter under one failed connection
attempt (a `close` without an intervening `open`). -/
def failedAttemptStep (reconnectAttempts : Nat) : Nat :=
  (scheduleReconnect reconnectAttempts).1

-- ==================== Fill / event counting, close sequences ====================

/-- A CLOSE fill belonging to position `id`. -/
def isCloseFillFor (id : Nat) (f : Fill) : Bool :=
  f.positionId == id && f.type == FillType.CLOSE

/-- Number of CLOSE fills stored for position `id`. -/
def countCloseFills (st : Store) (id : Nat) : Nat :=
  (st.fills.filter (isCloseFillFor id)).length

/-- A terminal (closure) event belonging to position `id`. -/
def isTerminalEventFor (id : Nat) (e : Event) : Bool :=
  e.positionId == id
    && (e.event == EventType.SL_TRIGGERED || e.event == EventType.TP_TRIGGERED
        || e.event == EventType.MANUAL_CLOSE)

/-- Number of terminal events stored for position `id`. -/
def countTerminalEvents (st : Store) (id : Nat) : Nat :=
  (st.events.filter (isTerminalEventFor id)).length

/-- The arguments of one `closePosition` call. -/
structure CloseCall where
  closePrice : ℚ
  fee : ℚ
  event : CloseEvent
  now : Nat

/-- One `closePosition` call in a sequence, threading the store and
counting calls that returned a position (succeeded). -/
def closeStep (id : Nat) (acc : Store × Nat) (c : CloseCall) : Store × Nat :=
  let r := closePosition acc.1 id c.closePrice c.fee c.event c.now
  (r.2, acc.2 + if r.1.isSome then 1 else 0)

/-- Run a sequence of `closePosition` calls against one position id. -/
def runCloseSeq (id : Nat) (calls : List CloseCall) (st : Store) : Store × Nat :=
  calls.foldl (closeStep id) (st, 0)

/-- The position with id `id` exists and is OPEN. -/
def isOpenB (st : Store) (id : Nat) : Bool :=
  match findPosition st.positions id with
  | some p => p.status == Status.OPEN
  | none => false

-- ==================== Helper lemmas ====================

theorem applyClose_id (id : Nat) (cp fee rp : ℚ) (now : Nat) (p : Position) :
    (applyClose id cp fee rp now p).id = p.id := by
  unfold applyClose; split <;> rfl

theorem applySLTP_id (id : Nat) (data : UpdatePositionRequest) (p : Position) :
    (applySLTP id data p).id = p.id := by
  unfold applySLTP; split <;> rfl

theorem findPosition_map (l : List Position) (f : Position → Position) (id : Nat)
    (hf : ∀ p, (f p).id = p.id) :
    findPosition (l.map f) id = (findPosition l id).map f := by
  induction l with
  | nil => rfl
  | cons p l ih =>
    unfold findPosition at *
    by_cases h : (p.id == id) = true
    · rw [List.map_cons, List.find?_cons_of_pos, List.find?_cons_of_pos] <;>
        simp [hf, h]
    · rw [List.map_cons, List.find?_cons_of_neg, List.find?_cons_of_neg]
      · exact ih
      · simpa using h
      · simpa [hf] using h

theorem findPosition_id (l : List Position) (id : Nat) (p : Position)
    (h : findPosition l id = some p) : p.id = id := by
  have := List.find?_some h
  simpa using this

/-- Explicit description of a successful `closePosition` on an OPEN row. -/
theorem closePosition_open (st : Store) (id : Nat) (cp fee : ℚ)
    (ev : CloseEvent) (now : Nat) (p : Position)
    (hp : getPositionById st id = some p) (ho : p.status = Status.OPEN) :
    closePosition st id cp fee ev now =
      (some (applyClose id cp fee
              ((if p.side = "LONG" then (cp - p.entryPrice) * p.qty
                else (p.entryPrice - cp) * p.qty) - p.feesOpen - fee - p.fundingPnl) now p),
       { st with
          positions := (st.positions.map (applyClose id cp fee ((if p.side = "LONG" then (cp - p.entryPrice) * p.qty else (p.entryPrice - cp) * p.qty) - p.feesOpen - fee - p.fundingPnl) now))
          fills := (st.fills ++ [{ id := st.nextFillId, positionId := id, type := FillType.CLOSE, price := cp, qty := p.qty, fee := fee, ts := now }])
          nextFillId := st.nextFillId + 1
          events := (st.events ++ [{ id := st.nextEventId, positionId := id, event := ev.toEventType, ts := now }])
          nextEventId := st.nextEventId + 1 }) := by
  have hne : p.status ≠ Status.CLOSED := by rw [ho]; intro h; cases h
  unfold closePosition
  rw [hp]
  simp only [hne, if_false, createFill, createEvent]
  rw [Prod.mk.injEq]
  refine ⟨?_, rfl⟩
  unfold getPositionById at hp ⊢
  rw [findPosition_map st.positions _ id (fun q => applyClose_id _ _ _ _ _ q), hp]
  rfl

/-- `closePosition` on a missing row is a no-op returning null. -/
theorem closePosition_missing (st : Store) (id : Nat) (cp fee : ℚ)
    (ev : CloseEvent) (now : Nat) (hp : getPositionById st id = none) :
    closePosition st id cp fee ev now = (none, st) := by
  unfold closePosition; rw [hp]

/-- `closePosition` on a CLOSED row is a no-op returning null. -/
theorem closePosition_closed (st : Store) (id : Nat) (cp fee : ℚ)
    (ev : CloseEvent) (now : Nat) (p : Position)
    (hp : getPositionById st id = some p) (hc : p.status = Status.CLOSED) :
    closePosition st id cp fee ev now = (none, st) := by
  unfold closePosition; rw [hp]; simp [hc]

theorem findPosition_after_applyClose (l : List Position) (id : Nat)
    (cp fee rp : ℚ) (now : Nat) (p : Position)
    (hp : findPosition l id = some p) :
    findPosition (l.map (applyClose id cp fee rp now)) id =
      some { p with status := Status.CLOSED, closePrice := some cp,
                    closeTime := some now, realizedPnl := rp, feesClose := fee } := by
  rw [findPosition_map _ _ _ (fun q => applyClose_id _ _ _ _ _ q), hp]
  have hid : p.id = id := findPosition_id l id p hp
  simp [applyClose, hid]

/-- Invariant carried through a sequence of `closePosition` calls:
while the position is still OPEN nothing has been appended and no call has
succeeded; and the counters never exceed one. -/
def CloseInv (id : Nat) (acc : Store × Nat) : Prop :=
  (isOpenB acc.1 id = true →
      countCloseFills acc.1 id = 0 ∧ countTerminalEvents acc.1 id = 0 ∧ acc.2 = 0) ∧
  countCloseFills acc.1 id ≤ 1 ∧ countTerminalEvents acc.1 id ≤ 1 ∧ acc.2 ≤ 1

theorem closeStep_inv (id : Nat) (acc : Store × Nat) (c : CloseCall)
    (h : CloseInv id acc) : CloseInv id (closeStep id acc c) := by
  obtain ⟨h0, hf, he, hs⟩ := h
  unfold closeStep
  cases hfind : getPositionById acc.1 id with
  | none =>
    rw [closePosition_missing _ _ _ _ _ _ hfind]
    exact ⟨fun ho => h0 ho, hf, he, by simpa using hs⟩
  | some p =>
    cases hst : p.status with
    | CLOSED =>
      rw [closePosition_closed _ _ _ _ _ _ p hfind hst]
      exact ⟨fun ho => h0 ho, hf, he, by simpa using hs⟩
    | OPEN =>
      have hopen : isOpenB acc.1 id = true := by
        unfold isOpenB
        unfold getPositionById at hfind
        rw [hfind]
        simp [hst]
      obtain ⟨hf0, he0, hs0⟩ := h0 hopen
      rw [closePosition_open _ _ _ _ _ _ p hfind hst]
      refine ⟨?_, ?_, ?_, ?_⟩
      · intro hcontra
        exfalso
        unfold isOpenB at hcontra
        rw [findPosition_after_applyClose _ _ _ _ _ _ _ hfind] at hcontra
        simp at hcontra
      · simp only [countCloseFills, List.filter_append, List.length_append]
        unfold countCloseFills at hf0
        rw [hf0]
        simp [isCloseFillFor]
      · simp only [countTerminalEvents, List.filter_append, List.length_append]
        unfold countTerminalEvents at he0
        rw [he0]
        cases c.event <;> simp [isTerminalEventFor, CloseEvent.toEventType]
      · simp [hs0]

theorem foldl_closeStep_inv (id : Nat) (calls : List CloseCall)
    (acc : Store × Nat) (h : CloseInv id acc) :
    CloseInv id (calls.foldl (closeStep id) acc) := by
  induction calls generalizing acc with
  | nil => exact h
  | cons c cs ih => exact ih _ (closeStep_inv id acc c h)

-- ==================== Concrete fixtures ====================

/-- Default settings row (takerFee 0.0004, makerFee 0.0002). -/
def settings0 : Settings :=
  { takerFee := 1/2500, makerFee := 1/5000, enableFunding := false,
    baseBalance := 10000, numberFormat := "en-US", timezone := "UTC",
    defaultStopLossPercent := 5, defaultTakeProfitPercent := 10 }

/-- A freshly opened position with no fees and leverage 1. -/
def openPos (id : Nat) (symbol side : String) (qty entryPrice : ℚ)
    (entryTime : Nat) (sl tp : Option ℚ) : Position :=
  { id := id, symbol := symbol, side := side, qty := qty,
    entryPrice := entryPrice, entryTime := entryTime, sl := sl, tp := tp,
    leverage := 1, status := .OPEN, closePrice := none, closeTime := none,
    realizedPnl := 0, feesOpen := 0, feesClose := 0, fundingPnl := 0,
    notes := none }

/-- A store holding a single open LONG position. -/
def stOneOpen : Store :=
  { positions := [openPos 1 "BTCUSDT" "LONG" 1 100 0 none none],
    fills := [], events := [], nextPositionId := 2, nextFillId := 1,
    nextEventId := 1, settings := settings0 }

-- ==================== Claims ====================

/-- Claim C1: if the stored position with a given id is already CLOSED,
`closePosition` returns null and leaves the whole store unchanged; and for
any sequence of `closePosition` calls on one position id (starting from a
store with no CLOSE fill and no terminal event for it), at most one call
succeeds, and at most one CLOSE fill and one terminal event ever exist for
that position. -/
theorem closePosition_idempotent_at_most_once (st : Store) (id : Nat)
    (hf : countCloseFills st id = 0) (he : countTerminalEvents st id = 0) :
    (∀ (p : Position) (cp fee : ℚ) (ev : CloseEvent) (now : Nat),
        getPositionById st id = some p → p.status = Status.CLOSED →
        closePosition st id cp fee ev now = (none, st)) ∧
    (∀ calls : List CloseCall,
        countCloseFills (runCloseSeq id calls st).1 id ≤ 1 ∧
        countTerminalEvents (runCloseSeq id calls st).1 id ≤ 1 ∧
        (runCloseSeq id calls st).2 ≤ 1) := by
  constructor
  · intro p cp fee ev now hp hc
    exact closePosition_closed st id cp fee ev now p hp hc
  · intro calls
    have h0 : CloseInv id (st, 0) :=
      ⟨fun _ => ⟨hf, he, rfl⟩, by simp [hf], by simp [he], by omega⟩
    have h := foldl_closeStep_inv id calls (st, 0) h0
    exact ⟨h.2.1, h.2.2.1, h.2.2.2⟩

theorem closePosition_idempotent_witness :
    countCloseFills stOneOpen 1 = 0 ∧
    countCloseFills
      (runCloseSeq 1 [⟨90, 0, CloseEvent.MANUAL_CLOSE, 3⟩,
                      ⟨80, 0, CloseEvent.MANUAL_CLOSE, 4⟩] stOneOpen).1 1 ≤ 1 ∧
    (runCloseSeq 1 [⟨90, 0, CloseEvent.MANUAL_CLOSE, 3⟩,
                    ⟨80, 0, CloseEvent.MANUAL_CLOSE, 4⟩] stOneOpen).2 ≤ 1 := by
  have h := closePosition_idempotent_at_most_once stOneOpen 1 (by decide) (by decide)
  exact ⟨by decide, (h.2 _).1, (h.2 _).2.2⟩

/-- Claim C2: the stored fields of a position successfully closed by
`closePosition` satisfy
`realizedPnl + feesOpen + feesClose + fundingPnl = (closePrice − entryPrice)·qty`
for LONG (negated for SHORT), with `feesClose` equal to the fee argument. -/
theorem closePosition_pnl_determinism (st : Store) (id : Nat) (cp fee : ℚ)
    (ev : CloseEvent) (now : Nat) (p : Position)
    (hp : getPositionById st id = some p) (ho : p.status = Status.OPEN) :
    ∃ p2 st2, closePosition st id cp fee ev now = (some p2, st2) ∧
      p2.feesClose = fee ∧
      (p.side = "LONG" →
        p2.realizedPnl + p2.feesOpen + p2.feesClose + p2.fundingPnl =
          (cp - p.entryPrice) * p.qty) ∧
      (p.side = "SHORT" →
        p2.realizedPnl + p2.feesOpen + p2.feesClose + p2.fundingPnl =
          (p.entryPrice - cp) * p.qty) := by
  rw [closePosition_open st id cp fee ev now p hp ho]
  have hid : p.id = id := findPosition_id st.positions id p hp
  refine ⟨_, _, rfl, ?_, ?_, ?_⟩
  · simp [applyClose, hid]
  · intro hside
    simp only [applyClose, hid, beq_self_eq_true, if_true, hside]
    ring
  · intro hside
    have hnl : p.side ≠ "LONG" := by rw [hside]; decide
    simp only [applyClose, hid, beq_self_eq_true, if_true, hnl, if_false]
    ring

theorem closePosition_pnl_witness :
    ∃ p2 st2, closePosition stOneOpen 1 110 1 CloseEvent.TP_TRIGGERED 5 = (some p2, st2) ∧
      p2.feesClose = 1 ∧
      p2.realizedPnl + p2.feesOpen + p2.feesClose + p2.fundingPnl = (110 - 100) * 1 := by
  obtain ⟨p2, st2, h1, h2, h3, _⟩ :=
    closePosition_pnl_determinism stOneOpen 1 110 1 CloseEvent.TP_TRIGGERED 5
      (openPos 1 "BTCUSDT" "LONG" 1 100 0 none none) (by decide) (by decide)
  exact ⟨p2, st2, h1, h2, h3 rfl⟩

/-- A store holding one open LONG position whose SL (95) and TP (90) both
hold at mark price 90. -/
def stSlTp : Store :=
  { positions := [openPos 1 "BTCUSDT" "LONG" 1 100 0 (some 95) (some 90)],
    fills := [], events := [], nextPositionId := 2, nextFillId := 1,
    nextEventId := 1, settings := settings0 }

/-- Claim C3: in the trigger engine's per-position loop body, SL is checked
first and a hit skips the TP check (`continue`), so when both predicates
hold the position is closed with SL_TRIGGERED — never TP_TRIGGERED — and
the decision does not depend on the TP value at all; at most one trigger
fires per (tick, position). -/
theorem trigger_sl_priority :
    (∀ (side : String) (mark : ℚ) (sl tp : Option ℚ),
        shouldTriggerSL side mark sl = true →
        triggerDecision side mark sl tp = some CloseEvent.SL_TRIGGERED ∧
        ∀ tp2, triggerDecision side mark sl tp2 = triggerDecision side mark sl tp) ∧
    (∀ (p : Position) (st : Store) (mark : ℚ) (now : Nat),
        st.positions = [p] → p.status = Status.OPEN →
        shouldTriggerSL p.side mark p.sl = true →
        shouldTriggerTP p.side mark p.tp = true →
        (checkTriggersForSymbol st p.symbol mark now).events =
          st.events ++ [{ id := st.nextEventId, positionId := p.id,
                          event := EventType.SL_TRIGGERED, ts := now }] ∧
        (findPosition (checkTriggersForSymbol st p.symbol mark now).positions p.id).map
            (fun q => q.status) = some Status.CLOSED) := by
  constructor
  · intro side mark sl tp hSL
    exact ⟨by simp [triggerDecision, hSL], fun tp2 => by simp [triggerDecision, hSL]⟩
  · intro p st mark now hpos ho hSL hTP
    have hfp : findPosition st.positions p.id = some p := by
      rw [hpos]; simp [findPosition]
    have hopen : getAllOpenPositions st = [p] := by
      unfold getAllOpenPositions getPositions
      rw [hpos]
      simp [ho, sortByEntryTimeDesc, insertByEntryTimeDesc]
    have hstep :
        checkTriggersForSymbol st p.symbol mark now =
          (closePosition st p.id mark
            (calculateTakerFee st (calculateNotional p.qty mark))
            CloseEvent.SL_TRIGGERED now).2 := by
      unfold checkTriggersForSymbol
      rw [hopen]
      have hdec : triggerDecision p.side mark p.sl p.tp = some CloseEvent.SL_TRIGGERED := by
        simp [triggerDecision, hSL]
      simp only [List.filter, beq_self_eq_true, List.foldl, hdec]
      unfold executeTrigger
      rw [hopen]
      simp
    rw [hstep, closePosition_open st p.id mark _ CloseEvent.SL_TRIGGERED now p hfp ho]
    refine ⟨rfl, ?_⟩
    rw [show (findPosition (st.positions.map (applyClose p.id mark (calculateTakerFee st (calculateNotional p.qty mark)) ((if p.side = "LONG" then (mark - p.entryPrice) * p.qty else (p.entryPrice - mark) * p.qty) - p.feesOpen - calculateTakerFee st (calculateNotional p.qty mark) - p.fundingPnl) now)) p.id) = some { p with status := Status.CLOSED, closePrice := some mark, closeTime := some now, realizedPnl := (if p.side = "LONG" then (mark - p.entryPrice) * p.qty else (p.entryPrice - mark) * p.qty) - p.feesOpen - calculateTakerFee st (calculateNotional p.qty mark) - p.fundingPnl, feesClose := calculateTakerFee st (calculateNotional p.qty mark) } from findPosition_after_applyClose st.positions p.id mark _ _ now p hfp]
    rfl

theorem trigger_sl_priority_witness :
    (checkTriggersForSymbol stSlTp "BTCUSDT" 90 5).events =
      stSlTp.events ++ [{ id := 1, positionId := 1,
                          event := EventType.SL_TRIGGERED, ts := 5 }] :=
  (trigger_sl_priority.2 (openPos 1 "BTCUSDT" "LONG" 1 100 0 (some 95) (some 90))
    stSlTp 90 5 (by decide) (by decide) (by decide) (by decide)).1

/-- Claim C4: for entry `E > 0` and percent `p > 0`, the SL price stored by
percent-mode conversion (`E·(1−p/100)` for LONG, `E·(1+p/100)` for SHORT)
triggers `shouldTriggerSL` at exactly itself, and never at a mark price
strictly on the favorable side (above it for LONG, below it for SHORT). -/
theorem percent_sl_round_trip (E p : ℚ) (_hE : 0 < E) (hp : 0 < p) :
    (convertSl "LONG" E (some "PERCENT") (some p) = some (E * (1 - p / 100)) ∧
     shouldTriggerSL "LONG" (E * (1 - p / 100)) (some (E * (1 - p / 100))) = true ∧
     ∀ m : ℚ, E * (1 - p / 100) < m →
       shouldTriggerSL "LONG" m (some (E * (1 - p / 100))) = false) ∧
    (convertSl "SHORT" E (some "PERCENT") (some p) = some (E * (1 + p / 100)) ∧
     shouldTriggerSL "SHORT" (E * (1 + p / 100)) (some (E * (1 + p / 100))) = true ∧
     ∀ m : ℚ, m < E * (1 + p / 100) →
       shouldTriggerSL "SHORT" m (some (E * (1 + p / 100))) = false) := by
  have hp0 : p ≠ 0 := ne_of_gt hp
  refine ⟨⟨?_, ?_, ?_⟩, ⟨?_, ?_, ?_⟩⟩
  · simp [convertSl, hp0]
  · simp [shouldTriggerSL, shouldTriggerSLLong]
  · intro m hm
    simp [shouldTriggerSL, shouldTriggerSLLong, not_le.2 hm]
  · rw [show convertSl "SHORT" E (some "PERCENT") (some p) =
        (if ("SHORT" : String) = "LONG" then some (E * (1 - p / 100))
         else some (E * (1 + p / 100))) by simp [convertSl, hp0]]
    rw [if_neg (by decide)]
  · rw [show shouldTriggerSL "SHORT" (E * (1 + p / 100)) (some (E * (1 + p / 100))) =
        shouldTriggerSLShort (E * (1 + p / 100)) (some (E * (1 + p / 100))) by
      unfold shouldTriggerSL; rw [if_neg (by decide)]]
    simp [shouldTriggerSLShort]
  · intro m hm
    rw [show shouldTriggerSL "SHORT" m (some (E * (1 + p / 100))) =
        shouldTriggerSLShort m (some (E * (1 + p / 100))) by
      unfold shouldTriggerSL; rw [if_neg (by decide)]]
    simp [shouldTriggerSLShort, not_le.2 hm]

theorem percent_sl_round_trip_witness :
    shouldTriggerSL "LONG" (100 * (1 - 5 / 100)) (some (100 * (1 - 5 / 100))) = true ∧
    shouldTriggerSL "LONG" 96 (some (100 * (1 - 5 / 100))) = false := by
  have h := percent_sl_round_trip 100 5 (by norm_num) (by norm_num)
  exact ⟨h.1.2.1, h.1.2.2 96 (by norm_num)⟩

/-- Claim C8: reconnect attempt `n` (starting at 1) is scheduled after
`min(30000 ms, 2^(n−1)·1000 ms)`; the counter resets to 0 on a successful
open; and after 10 consecutive failed attempts `scheduleReconnect` emits
the terminal `maxReconnectAttemptsReached` signal instead of scheduling. -/
theorem reconnect_backoff (n : Nat) (h1 : 1 ≤ n) (h2 : n ≤ maxReconnectAttempts) :
    scheduleReconnect (n - 1) =
      (n, ReconnectAction.scheduled (min 30000 (2 ^ (n - 1) * 1000))) ∧
    onSocketOpen n = 0 ∧
    failedAttemptStep^[10] 0 = 10 ∧
    scheduleReconnect 10 = (10, ReconnectAction.giveUp) := by
  have hlt : ¬ (maxReconnectAttempts ≤ n - 1) := by
    unfold maxReconnectAttempts at *; omega
  have hn : n - 1 + 1 = n := by omega
  refine ⟨?_, rfl, by decide, by decide⟩
  unfold scheduleReconnect
  rw [if_neg hlt]
  simp only [hn, Nat.add_sub_cancel]
  rw [Nat.mul_comm, Nat.min_comm]

theorem reconnect_backoff_witness :
    scheduleReconnect 2 = (3, ReconnectAction.scheduled 4000) := by
  have h := (reconnect_backoff 3 (by decide) (by decide)).1
  rw [h]
  decide

/-- Equality of every `Position` field except `sl` and `tp`. -/
def frameEq (p q : Position) : Prop :=
  p.id = q.id ∧ p.symbol = q.symbol ∧ p.side = q.side ∧ p.qty = q.qty ∧
  p.entryPrice = q.entryPrice ∧ p.entryTime = q.entryTime ∧
  p.leverage = q.leverage ∧ p.status = q.status ∧ p.closePrice = q.closePrice ∧
  p.closeTime = q.closeTime ∧ p.realizedPnl = q.realizedPnl ∧
  p.feesOpen = q.feesOpen ∧ p.feesClose = q.feesClose ∧
  p.fundingPnl = q.fundingPnl ∧ p.notes = q.notes

theorem frameEq_refl (p : Position) : frameEq p p := by
  unfold frameEq; exact ⟨rfl, rfl, rfl, rfl, rfl, rfl, rfl, rfl, rfl, rfl, rfl, rfl, rfl, rfl, rfl⟩

theorem frameEq_applySLTP (id : Nat) (data : UpdatePositionRequest) (p : Position) :
    frameEq p (applySLTP id data p) := by
  unfold frameEq applySLTP
  split <;> exact ⟨rfl, rfl, rfl, rfl, rfl, rfl, rfl, rfl, rfl, rfl, rfl, rfl, rfl, rfl, rfl⟩

theorem forall₂_frame_map (l : List Position) (f : Position → Position)
    (hf : ∀ p, frameEq p (f p)) : List.Forall₂ frameEq l (l.map f) := by
  induction l with
  | nil => exact List.Forall₂.nil
  | cons p l ih => exact List.Forall₂.cons (hf p) ih

/-- Claim C10: `updatePosition` changes no stored field of any position
other than `sl` and `tp` (and touches no fill); and when neither `sl` nor
`tp` is provided it performs no write, appends no event, and returns the
position as currently stored. -/
theorem updatePosition_frame (st : Store) (id : Nat)
    (data : UpdatePositionRequest) (now : Nat) :
    List.Forall₂ frameEq st.positions ((updatePosition st id data now).2.positions) ∧
    (updatePosition st id data now).2.fills = st.fills ∧
    (data.sl = none → data.tp = none →
      updatePosition st id data now = (getPositionById st id, st)) := by
  unfold updatePosition
  by_cases h : data.sl = none ∧ data.tp = none
  · rw [if_pos h]
    exact ⟨List.forall₂_same.mpr (fun p _ => frameEq_refl p), rfl, fun _ _ => rfl⟩
  · rw [if_neg h]
    refine ⟨?_, rfl, fun h1 h2 => absurd ⟨h1, h2⟩ h⟩
    exact forall₂_frame_map st.positions _ (fun p => frameEq_applySLTP id data p)

theorem updatePosition_frame_witness :
    updatePosition stOneOpen 1 { sl := none, tp := none } 9 =
      (getPositionById stOneOpen 1, stOneOpen) :=
  (updatePosition_frame stOneOpen 1 { sl := none, tp := none } 9).2.2 rfl rfl

/-- A position that has already been closed. -/
def closedPos : Position :=
  { id := 1
    symbol := "BTCUSDT"
    side := "LONG"
    qty := 1
    entryPrice := 100
    entryTime := 0
    sl := none
    tp := none
    leverage := 1
    status := .CLOSED
    closePrice := some 90
    closeTime := some 5
    realizedPnl := -10
    feesOpen := 0
    feesClose := 0
    fundingPnl := 0
    notes := none }

/-- A store holding a single CLOSED position. -/
def stClosed : Store :=
  { positions := [closedPos], fills := [], events := [], nextPositionId := 2,
    nextFillId := 1, nextEventId := 1, settings := settings0 }

/-- Counterexample to claim C6: on a CLOSED position, `updatePosition`
does NOT fail — it overwrites `sl` and appends an SL_UPDATED event. -/
theorem update_closed_counterexample :
    (stClosed.positions.map (fun p => p.status) = [Status.CLOSED]) ∧
    ((updatePosition stClosed 1 { sl := some 95, tp := none } 9).2.events.map
        (fun e => e.event)) = [EventType.SL_UPDATED] ∧
    ((updatePosition stClosed 1 { sl := some 95, tp := none } 9).1.map
        (fun q => q.sl)) = some (some 95) := by
  decide

/-- Claim C6 (amended): `updatePosition` performs no status check at all:
for any stored position — OPEN or CLOSED alike — a call providing `sl`
and/or `tp` updates exactly the provided fields and appends exactly one
event, named SL_UPDATED when `sl` is provided and TP_UPDATED otherwise. -/
theorem updatePosition_no_status_check (st : Store) (id : Nat)
    (data : UpdatePositionRequest) (now : Nat) (p : Position)
    (hp : getPositionById st id = some p)
    (hne : ¬(data.sl = none ∧ data.tp = none)) :
    (updatePosition st id data now).1 = some (applySLTP id data p) ∧
    (updatePosition st id data now).2.events =
      st.events ++ [{ id := st.nextEventId, positionId := id, event := (match data.sl with | some _ => EventType.SL_UPDATED | none => EventType.TP_UPDATED), ts := now }] := by
  unfold updatePosition
  rw [if_neg hne]
  simp only [createEvent]
  constructor
  · show getPositionById _ id = _
    unfold getPositionById at hp ⊢
    rw [findPosition_map st.positions _ id (fun q => applySLTP_id _ _ q), hp]
    rfl
  · trivial

theorem updatePosition_no_status_check_witness :
    (updatePosition stOneOpen 1 { sl := some 80, tp := none } 9).1 =
      some (applySLTP 1 { sl := some 80, tp := none }
        (openPos 1 "BTCUSDT" "LONG" 1 100 0 none none)) :=
  (updatePosition_no_status_check stOneOpen 1 { sl := some 80, tp := none } 9
    (openPos 1 "BTCUSDT" "LONG" 1 100 0 none none) (by decide) (by decide)).1

theorem insertByEntryTimeDesc_perm (p : Position) (l : List Position) :
    List.Perm (insertByEntryTimeDesc p l) (p :: l) := by
  induction l with
  | nil => exact List.Perm.refl _
  | cons q qs ih =>
    unfold insertByEntryTimeDesc
    split
    · exact List.Perm.refl _
    · exact (ih.cons q).trans (List.Perm.swap p q qs)

theorem sortByEntryTimeDesc_perm (l : List Position) :
    List.Perm (sortByEntryTimeDesc l) l := by
  induction l with
  | nil => exact List.Perm.refl _
  | cons p ps ih => exact (insertByEntryTimeDesc_perm p _).trans (ih.cons p)

/-- Claim C7 (amended): `avgRMultiple` is the mean over the closed
positions with non-null `sl`, where a position with zero risk
(`entryPrice = sl`) contributes `0` to the sum but still counts in the
divisor — and the value does not depend on the listing order. -/
theorem statsAvgRMultiple_eq_amended (st : Store) :
    statsAvgRMultiple st = amendedAvgRMultiple st := by
  unfold statsAvgRMultiple amendedAvgRMultiple rMultiples getPositions
  have hperm : List.Perm
      ((sortByEntryTimeDesc (st.positions.filter
          (fun p => p.status == Status.CLOSED))).filter (fun p => p.sl.isSome))
      ((st.positions.filter (fun p => p.status == Status.CLOSED)).filter
          (fun p => p.sl.isSome)) :=
    (sortByEntryTimeDesc_perm _).filter _
  have hmap := hperm.map (fun p =>
    let risk := |p.entryPrice - p.sl.getD 0|
    if risk = 0 then 0 else (p.realizedPnl / p.qty) / risk)
  have hsum := hmap.sum_eq
  have hlen := hperm.length_eq
  simp only [List.length_map]
  rw [hsum, hlen]
  by_cases h : ((st.positions.filter
      (fun p => p.status == Status.CLOSED)).filter (fun p => p.sl.isSome)).length = 0
  · rw [h]
    norm_num
  · rw [if_neg h, if_pos (Nat.pos_of_ne_zero h)]

/-- A closed LONG position whose SL equals its entry (zero risk). -/
def closedZeroRisk : Position :=
  { id := 1
    symbol := "BTCUSDT"
    side := "LONG"
    qty := 1
    entryPrice := 100
    entryTime := 0
    sl := some 100
    tp := none
    leverage := 1
    status := .CLOSED
    closePrice := some 105
    closeTime := some 5
    realizedPnl := 5
    feesOpen := 0
    feesClose := 0
    fundingPnl := 0
    notes := none }

/-- A closed LONG position with risk 10 and R-multiple 2. -/
def closedRTwo : Position :=
  { id := 2
    symbol := "BTCUSDT"
    side := "LONG"
    qty := 1
    entryPrice := 100
    entryTime := 1
    sl := some 90
    tp := none
    leverage := 1
    status := .CLOSED
    closePrice := some 120
    closeTime := some 6
    realizedPnl := 20
    feesOpen := 0
    feesClose := 0
    fundingPnl := 0
    notes := none }

/-- Store with one zero-risk closed position and one with R-multiple 2. -/
def stZeroRisk : Store :=
  { positions := [closedZeroRisk, closedRTwo], fills := [], events := [],
    nextPositionId := 3, nextFillId := 1, nextEventId := 1, settings := settings0 }

/-- Counterexample to claim C7: the stats route counts a zero-risk closed
position (non-null `sl` with `|entryPrice − sl| = 0`) in the divisor with
value 0, so the returned average is 1, while the claim's formula — which
excludes zero-risk rows from both sum and divisor — gives 2. -/
theorem avg_r_counterexample :
    statsAvgRMultiple stZeroRisk = 1 ∧ claimAvgRMultiple stZeroRisk = 2 := by
  have hclosed : getPositions stZeroRisk (some Status.CLOSED) =
      [closedRTwo, closedZeroRisk] := by
    show sortByEntryTimeDesc _ = _
    norm_num [stZeroRisk, List.filter, closedZeroRisk, closedRTwo,
      sortByEntryTimeDesc, insertByEntryTimeDesc]
  have hrs : rMultiples [closedRTwo, closedZeroRisk] = [2, 0] := by
    norm_num [rMultiples, List.filter, closedZeroRisk, closedRTwo]
  constructor
  · unfold statsAvgRMultiple
    rw [hclosed, hrs]
    norm_num [List.sum]
  · unfold claimAvgRMultiple
    have hqual : stZeroRisk.positions.filter (fun p =>
        p.status == Status.CLOSED && p.sl.isSome
          && decide (|p.entryPrice - p.sl.getD 0| ≠ 0)) = [closedRTwo] := by
      norm_num [stZeroRisk, List.filter, closedZeroRisk, closedRTwo]
    rw [hqual]
    norm_num [List.sum, closedRTwo]

theorem findPosition_append_fresh (l : List Position) (p : Position)
    (h : ∀ q ∈ l, q.id ≠ p.id) : findPosition (l ++ [p]) p.id = some p := by
  induction l with
  | nil => simp [findPosition]
  | cons q qs ih =>
    unfold findPosition at *
    rw [List.cons_append,
      List.find?_cons_of_neg _ (by simpa using h q (List.mem_cons_self q qs))]
    exact ih (fun r hr => h r (List.mem_cons_of_mem q hr))

/-- On the all-success path, `createPosition` appends the new position row,
one OPEN fill and one POSITION_CREATED event, and returns the re-read row
(which is the new row when the id is fresh). -/
theorem createPosition_ok (data : CreatePositionRequest) (ep fee : ℚ)
    (now : Nat) (st : Store)
    (hfresh : ∀ q ∈ st.positions, q.id ≠ st.nextPositionId) :
    createPosition data ep fee now st =
      (some (mkNewPosition data ep fee now st.nextPositionId),
       { positions := (st.positions ++ [mkNewPosition data ep fee now st.nextPositionId])
         fills := (st.fills ++ [{ id := st.nextFillId, positionId := st.nextPositionId, type := FillType.OPEN, price := ep, qty := (mkNewPosition data ep fee now st.nextPositionId).qty, fee := fee, ts := now }])
         events := (st.events ++ [{ id := st.nextEventId, positionId := st.nextPositionId, event := EventType.POSITION_CREATED, ts := now }])
         nextPositionId := st.nextPositionId + 1
         nextFillId := st.nextFillId + 1
         nextEventId := st.nextEventId + 1
         settings := st.settings }) := by
  unfold createPosition createPositionRun
  rw [if_neg (show ¬((({ posOk := true, fillOk := true, evOk := true } : WriteSchedule)).posOk = false) by decide)]
  rw [if_neg (show ¬((({ posOk := true, fillOk := true, evOk := true } : WriteSchedule)).fillOk = false) by decide)]
  rw [if_neg (show ¬((({ posOk := true, fillOk := true, evOk := true } : WriteSchedule)).evOk = false) by decide)]
  simp only [createFill, createEvent]
  rw [show getPositionById { st with positions := (st.positions ++ [mkNewPosition data ep fee now st.nextPositionId]), nextPositionId := st.nextPositionId + 1, fills := (st.fills ++ [{ id := st.nextFillId, positionId := (mkNewPosition data ep fee now st.nextPositionId).id, type := FillType.OPEN, price := ep, qty := (mkNewPosition data ep fee now st.nextPositionId).qty, fee := fee, ts := now }]), nextFillId := st.nextFillId + 1, events := (st.events ++ [{ id := st.nextEventId, positionId := (mkNewPosition data ep fee now st.nextPositionId).id, event := EventType.POSITION_CREATED, ts := now }]), nextEventId := st.nextEventId + 1 } (mkNewPosition data ep fee now st.nextPositionId).id = some (mkNewPosition data ep fee now st.nextPositionId) from findPosition_append_fresh st.positions _ hfresh]
  rfl

/-- The MARKET-entry request used below. -/
def reqMarket : CreatePositionRequest :=
  { symbol := "BTCUSDT", side := "LONG", sizeMode := "QTY", sizeValue := 1,
    leverage := 1, entryType := "MARKET", limitPrice := none, sl := none,
    tp := none, slMode := none, tpMode := none, notes := none }

/-- An empty store. -/
def stEmpty : Store :=
  { positions := [], fills := [], events := [], nextPositionId := 1,
    nextFillId := 1, nextEventId := 1, settings := settings0 }

/-- Claim C5 (code finding): `createPosition` runs its three INSERTs as
separate autocommitted statements with no enclosing transaction, so when
the fill INSERT fails after the position INSERT succeeded, the position
row stays persisted while no fill and no event exists — the operation is
not atomic.  (On the all-success path all three records are persisted,
with `status = OPEN` and `feesOpen` equal to the fee argument.) -/
theorem createPosition_not_atomic :
    (∃ st2, createPositionRun { posOk := true, fillOk := false, evOk := true }
        reqMarket 100 1 7 stEmpty = RunResult.failed st2 ∧
      st2.positions = [mkNewPosition reqMarket 100 1 7 1] ∧
      st2.fills = [] ∧ st2.events = []) ∧
    (∃ p st3, createPositionRun { posOk := true, fillOk := true, evOk := true }
        reqMarket 100 1 7 stEmpty = RunResult.ok p st3 ∧
      p.status = Status.OPEN ∧ p.feesOpen = 1 ∧
      st3.fills.length = 1 ∧ st3.events.length = 1) :=
  ⟨⟨_, rfl, rfl, rfl, rfl⟩, ⟨_, _, rfl, rfl, rfl, rfl, rfl⟩⟩

/-- A LIMIT request whose symbol "abc" violates the documented symbol
format and which carries a truthy limitPrice. -/
def reqBadSymbol : CreatePositionRequest :=
  { symbol := "abc", side := "LONG", sizeMode := "QTY", sizeValue := 1,
    leverage := 5, entryType := "LIMIT", limitPrice := some 100, sl := none,
    tp := none, slMode := none, tpMode := none, notes := none }

/-- Projection: the symbol and side of a successfully created position. -/
def createdSymbol : PostResult → Option (String × String)
  | .created p _ => some (p.symbol, p.side)
  | _ => none

/-- Counterexample to claim C9: a LIMIT request whose symbol "abc" is not
a 5–20 character uppercase alphanumeric USDT symbol is NOT rejected — the
POST handler creates the position with that symbol (the format check lives
only inside `getCurrentPrice`, which the LIMIT path never calls). -/
theorem symbol_validation_counterexample :
    isValidSymbolFormat "abc" = false ∧
    isValidSymbolFormat "ABC" = false ∧
    createdSymbol (postPositions (fun _ => 100) stEmpty reqBadSymbol 7) =
      some ("abc", "LONG") := by
  refine ⟨rfl, rfl, ?_⟩
  rfl

/-- Claim C9 (amended): the POST handler rejects exactly on JS-falsy
required fields, leverage outside [1,125], or non-positive size — each
rejection returned before any write — and performs no symbol-format or
side-membership validation: a LIMIT request with a truthy `limitPrice`
passes validation with arbitrary symbol and side strings and creates the
position. -/
theorem post_validation_amended (oracle : String → ℚ) (st : Store)
    (body : CreatePositionRequest) (now : Nat) :
    (∀ msg, validateCreate body = some msg →
       postPositions oracle st body now = PostResult.badRequest msg) ∧
    (body.leverage < 1 ∨ 125 < body.leverage →
       ∃ msg, validateCreate body = some msg) ∧
    (body.sizeValue ≤ 0 → ∃ msg, validateCreate body = some msg) ∧
    (validateCreate body = none → body.entryType = "LIMIT" →
       qTruthy body.limitPrice = true →
       (∀ q ∈ st.positions, q.id ≠ st.nextPositionId) →
       ∃ p st2, postPositions oracle st body now = PostResult.created p st2 ∧
         p.symbol = body.symbol ∧ p.side = body.side ∧
         p.status = Status.OPEN) := by
  refine ⟨?_, ?_, ?_, ?_⟩
  · intro msg h
    unfold postPositions
    rw [h]
  · intro hlev
    by_cases hA : (body.symbol = "" ∨ body.side = "" ∨ body.sizeValue = 0 ∨ body.leverage = 0)
    · exact ⟨_, by unfold validateCreate; rw [if_pos hA]⟩
    · exact ⟨_, by unfold validateCreate; rw [if_neg hA, if_pos hlev]⟩
  · intro hsz
    by_cases hA : (body.symbol = "" ∨ body.side = "" ∨ body.sizeValue = 0 ∨ body.leverage = 0)
    · exact ⟨_, by unfold validateCreate; rw [if_pos hA]⟩
    by_cases hL : (body.leverage < 1 ∨ 125 < body.leverage)
    · exact ⟨_, by unfold validateCreate; rw [if_neg hA, if_pos hL]⟩
    · exact ⟨_, by unfold validateCreate; rw [if_neg hA, if_neg hL, if_pos hsz]⟩
  · intro hval hLim hTr hfresh
    unfold postPositions
    rw [hval]
    rw [if_pos ⟨hLim, hTr⟩]
    dsimp only
    rw [createPosition_ok _ _ _ _ _ hfresh]
    exact ⟨_, _, rfl, rfl, rfl, rfl⟩

/-- A well-formed LIMIT request. -/
def reqLimitGood : CreatePositionRequest :=
  { symbol := "ETHUSDT", side := "SHORT", sizeMode := "QTY", sizeValue := 2,
    leverage := 5, entryType := "LIMIT", limitPrice := some 50, sl := none,
    tp := none, slMode := none, tpMode := none, notes := none }

theorem post_validation_amended_witness :
    ∃ p st2, postPositions (fun _ => 0) stEmpty reqLimitGood 7 =
        PostResult.created p st2 ∧
      p.symbol = reqLimitGood.symbol ∧ p.side = reqLimitGood.side ∧
      p.status = Status.OPEN :=
  (post_validation_amended (fun _ => 0) stEmpty reqLimitGood 7).2.2.2
    (by decide) rfl (by decide) (by simp [stEmpty])

end BVT
